import Mathlib

/-!
Shallow embedding of `tk_utils/setup.py`: a bootstrap script that checks
the project layout (`check_locs`), provisions a virtual environment
(`create_venv`, `mk_venv_opts`) and installs one dependency with pip
(`Setup.get_pip`, `Setup.install_tk_utils_core`, `main`).

Modelling conventions:
- A filesystem path is a list of name components (`Pth`); the source
  compares `sys.prefix` with `str(env_dir)` as strings, we compare the
  canonical component lists (components contain no separator).
- The filesystem is a finite set of directory paths and file paths.
- Side effects (deleting a tree, spawning the `python -m venv` and `pip`
  subprocesses) are returned explicitly: functions return the new
  filesystem together with a list of `Event`s; an error return carries
  the message text built exactly as the source builds it.
- An uncaught Python exception terminates the run with exit code 1;
  `mainRun` returns that exit code explicitly.
-/

set_option maxRecDepth 100000

namespace TkSetup

/-- A path as its list of components, from the root downward. -/
abbrev Pth := List String

/-- The filesystem: which directory paths and file paths exist. -/
structure FS where
  dirs : List Pth
  files : List Pth
deriving DecidableEq

/-- Python `p.is_dir()`. -/
def FS.isDir (fs : FS) (p : Pth) : Bool := fs.dirs.contains p

/-- Python `p.is_file()`. -/
def FS.isFile (fs : FS) (p : Pth) : Bool := fs.files.contains p

/-- Python `p.exists()`. -/
def FS.pathExists (fs : FS) (p : Pth) : Bool := fs.isDir p || fs.isFile p

/-- Python `shutil.rmtree(p)`: removes `p` and everything below it. -/
def FS.rmtree (fs : FS) (p : Pth) : FS :=
  { dirs := fs.dirs.filter (fun q => !(p.isPrefixOf q)),
    files := fs.files.filter (fun q => !(p.isPrefixOf q)) }

/-- Binary directory name: `bin` on POSIX, `Scripts` otherwise (from `mk_venv_opts`). -/
def binDirName (posix : Bool) : String := if posix then ("bin") else ("Scripts")

/-- Modelled from the spec: effect of the `python -m venv d` subprocess
(the venv tool is external to this repository). It creates the directory
`d` with the `pyvenv.cfg` marker file, a binary subdirectory following
the host convention, and a pip executable inside it. -/
def FS.mkVenv (fs : FS) (posix : Bool) (d : Pth) : FS :=
  { dirs := d :: (d ++ [binDirName posix]) :: fs.dirs,
    files := (d ++ ["pyvenv.cfg"]) ::
      (d ++ [binDirName posix, if posix then ("pip") else ("pip.exe")]) :: fs.files }

/-- Observable side effects of a run. -/
inductive Event where
  | rmtree (p : Pth)
  | runVenv (p : Pth)
  | runPip (cmd : List String)
deriving DecidableEq

/-- The error taxonomy of the script, with the message text carried by
the raised exception.  The source raises plain `Exception`,
`FileNotFoundError` and `FileExistsError`; the spec names them
`MisplacedProjectError`, `MissingConfigError`, `EnvironmentConflictError`,
`CorruptEnvironmentError` and `PackageManagerNotFoundError`, and the
constructors below keep the spec names while the messages are the
source. -/
inductive SetupError where
  | misplacedProject (msg : String)
  | missingConfig (msg : String)
  | envConflict (msg : String)
  | corruptEnv (msg : String)
  | pipNotFound (msg : String)
deriving DecidableEq

/-- Python `str(p)` for a path, used only inside message strings and commands. -/
def pathStr (p : Pth) : String := String.intercalate ("/") p

/-- Source constant `RETRY_MSG`. -/
def RETRY_MSG : String :=
  "To resolve this issue:\n  1. Restart PyCharm\n  2. If the problem persists, try running this script with the --force flag:\n     python tk_utils/setup.py --force"

/-- Source `_mk_dirtree` (after `textwrap.dedent`); `THIS_DIR.name = "tk_utils"`,
`CONFIG_TOML.name = "config.toml"`, `THIS_FILE.name = "setup.py"`. -/
def mk_dirtree (init_note config_note setup_note : String) : String :=
  "<PYCHARM_PROJECT_FOLDER>/\n" ++
  "|__ tk_utils/         <- Must be under PyCharm\x27s project folder\n" ++
  "|   |__ __init__.py   " ++ init_note ++ "\n" ++
  "|   |__ config.toml   " ++ config_note ++ "\n" ++
  "|   |__ setup.py      " ++ setup_note ++ "\n"

/-- Source `has_idea_folder`. -/
def has_idea_folder (fs : FS) (pth : Pth) : Bool :=
  fs.isDir pth && fs.isDir (pth ++ [".idea"])

/-- Source `THIS_DIR` relative to a project root (`tk_utils/` holds the script). -/
def thisDirOf (projectRoot : Pth) : Pth := projectRoot ++ ["tk_utils"]

/-- Source `CONFIG_TOML` relative to a project root. -/
def configTomlOf (projectRoot : Pth) : Pth := thisDirOf projectRoot ++ ["config.toml"]

/-- Message of the error raised by `check_locs` when `.idea/` is missing. -/
def misplacedMsg : String :=
  String.intercalate ("\n")
    ["tk_utils should be inside a PyCharm project folder:", "",
     mk_dirtree ("") ("") ("<- This file")]

/-- Message of the error raised by `check_locs` when `config.toml` is missing. -/
def missingConfigMsg : String :=
  String.intercalate ("\n")
    ["Could not find \x27config.toml\x27 file.", "",
     mk_dirtree ("") ("<- Missing file") ("<- This file")]

/-- Source `check_locs`, parametrised by the project root (the source reads the
ambient `PROJECT_ROOT` derived from `__file__`).  A pure check: it
consumes the filesystem and returns no new one. -/
def check_locs (projectRoot : Pth) (fs : FS) : Except SetupError Unit :=
  if !(has_idea_folder fs projectRoot) then
    .error (.misplacedProject misplacedMsg)
  else if !(fs.pathExists (configTomlOf projectRoot)) then
    .error (.missingConfig missingConfigMsg)
  else
    .ok ()

/-- Message of the `FileExistsError` for an inactive existing venv. -/
def conflictMsg (env_dir : Pth) : String :=
  "Directory \x27" ++ pathStr env_dir ++ "\x27 contains a venv but it is not active.\n" ++ RETRY_MSG

/-- Message of the `FileExistsError` for a directory without a venv. -/
def corruptMsg (env_dir : Pth) : String :=
  "Directory \x27" ++ pathStr env_dir ++ "\x27 exists but does not contain a venv.\n" ++ RETRY_MSG

instance {ε α : Type} [DecidableEq ε] [DecidableEq α] : DecidableEq (Except ε α) := fun x y =>
  match x, y with
  | .error a, .error b =>
      if h : a = b then .isTrue (by simp [h]) else .isFalse (by simp [h])
  | .error _, .ok _ => .isFalse (by simp)
  | .ok _, .error _ => .isFalse (by simp)
  | .ok a, .ok b =>
      if h : a = b then .isTrue (by simp [h]) else .isFalse (by simp [h])

/-- Result of `create_venv`: the returned bool (or raised error), the
filesystem afterwards, and the side effects performed. -/
structure CVOut where
  result : Except SetupError Bool
  fs : FS
  events : List Event
deriving DecidableEq

/-- Source `create_venv(env_dir, force)`.  `sysPfx` is `sys.prefix`; the source
tests `sys.prefix == str(env_dir)`, here equality of canonical paths.
`env_dir.name` is the last component.  The forced removal falls through
to the same creation code as the absent case. -/
def create_venv (posix : Bool) (sysPfx : Pth) (env_dir : Pth) (force : Bool)
    (fs : FS) : CVOut :=
  if sysPfx = env_dir then
    { result := .ok false, fs := fs, events := [] }
  else if fs.pathExists env_dir then
    if force && (env_dir.getLast? == some (".venv")) then
      let fs1 := fs.rmtree env_dir
      { result := .ok true, fs := fs1.mkVenv posix env_dir,
        events := [.rmtree env_dir, .runVenv env_dir] }
    else if fs.pathExists (env_dir ++ ["pyvenv.cfg"]) then
      { result := .error (.envConflict (conflictMsg env_dir)), fs := fs, events := [] }
    else
      { result := .error (.corruptEnv (corruptMsg env_dir)), fs := fs, events := [] }
  else
    { result := .ok true, fs := fs.mkVenv posix env_dir, events := [.runVenv env_dir] }

/-- The namespace returned by `mk_venv_opts`. -/
structure VenvOpts where
  root : Pth
  bin : Pth
  pips : List Pth
deriving DecidableEq

/-- Source `mk_venv_opts`, parametrised by `POSIX` and the project root. -/
def mk_venv_opts (posix : Bool) (projectRoot : Pth) : VenvOpts :=
  let venv_dir := projectRoot ++ [".venv"]
  let venv_bin := venv_dir ++ [binDirName posix]
  let pipNames : List String :=
    if posix then ["pip", "pip3"] else ["pip.exe", "pip3.exe", "pip", "pip3"]
  { root := venv_dir, bin := venv_bin,
    pips := pipNames.map (fun x => venv_bin ++ [x]) }

/-- The `github.tk_utils_core` table of `config.toml` (keys `user` and `repo`). -/
structure Config where
  user : String
  repo : String
deriving DecidableEq

/-- Source `Setup.tk_utils_core_url`. -/
def tk_utils_core_url (c : Config) : String :=
  "https://github.com/" ++ c.user ++ "/" ++ c.repo ++ ".git"

/-- The candidate test of `Setup.get_pip`: `p.exists() and p.is_file()`. -/
def pipOk (fs : FS) (p : Pth) : Bool := fs.pathExists p && fs.isFile p

/-- Source `Setup.get_pip`: first candidate that exists and is a file. -/
def get_pip (fs : FS) (venv : VenvOpts) : Option Pth := venv.pips.find? (pipOk fs)

/-- Message of the error raised when no pip executable is found. -/
def pipNotFoundMsg : String := "Cannot find pip executable inside venv"

/-- Result of `install_tk_utils_core`: raised error or success, plus the
subprocess invocations performed. -/
structure InstOut where
  result : Except SetupError Unit
  events : List Event
deriving DecidableEq

/-- The pip command built by `Setup.install_tk_utils_core`.  `if branch:`
in the source is Python truthiness: `None` and the empty string both skip
the `@branch` suffix. -/
def installCmd (pipexec : Pth) (c : Config) (force_reinstall : Bool)
    (branch : Option String) : List String :=
  let tgt := tk_utils_core_url c
  let tgt := match branch with
    | some b => if b ≠ "" then tgt ++ "@" ++ b else tgt
    | none => tgt
  [pathStr pipexec, "install"] ++
    (if force_reinstall then ["--force-reinstall"] else []) ++
    ["git+" ++ tgt]

/-- Source `Setup.install_tk_utils_core`.  The source re-checks
`pipexec.exists()` after `get_pip` (redundantly) before running pip; a
nonzero pip exit would raise in `run`, which no claim depends on, so the
subprocess outcome is modelled as success. -/
def install_tk_utils_core (fs : FS) (venv : VenvOpts) (c : Config)
    (force_reinstall : Bool) (branch : Option String) : InstOut :=
  match get_pip fs venv with
  | none => { result := .error (.pipNotFound pipNotFoundMsg), events := [] }
  | some pipexec =>
      if !(fs.pathExists pipexec) then
        { result := .error (.pipNotFound pipNotFoundMsg), events := [] }
      else
        { result := .ok (),
          events := [.runPip (installCmd pipexec c force_reinstall branch)] }

/-- The command-line arguments accepted by `parse_args`: only `--force`
and `--branch`. -/
structure Args where
  force : Bool
  branch : Option String
deriving DecidableEq

/-- The ambient state `main` runs in: host convention, `sys.prefix`,
project root, filesystem, and the parsed `config.toml` contents. -/
structure World where
  posix : Bool
  sysPfx : Pth
  projectRoot : Pth
  fs : FS
  config : Config
deriving DecidableEq

/-- Outcome of a whole run: process exit code, final filesystem, events. -/
structure MainOut where
  exitCode : Nat
  fs : FS
  events : List Event
deriving DecidableEq

/-- Source `main`: `check_locs`, then `Setup.setup_venv(force=args.force)`
(which calls `create_venv` on `mk_venv_opts().root`), then
`install_tk_utils_core(branch=args.branch)` with `force_reinstall` left
at its default `True`.  An uncaught exception exits with code 1. -/
def mainRun (w : World) (args : Args) : MainOut :=
  match check_locs w.projectRoot w.fs with
  | .error _ => { exitCode := 1, fs := w.fs, events := [] }
  | .ok _ =>
    let venv := mk_venv_opts w.posix w.projectRoot
    let cv := create_venv w.posix w.sysPfx venv.root args.force w.fs
    match cv.result with
    | .error _ => { exitCode := 1, fs := cv.fs, events := cv.events }
    | .ok _ =>
      let inst := install_tk_utils_core cv.fs venv w.config true args.branch
      match inst.result with
      | .error _ => { exitCode := 1, fs := cv.fs, events := cv.events ++ inst.events }
      | .ok _ => { exitCode := 0, fs := cv.fs, events := cv.events ++ inst.events }

/-- Path `p` lies at or below `root`. -/
def subpathOf (root p : Pth) : Prop := ∃ t, root ++ t = p

/-- Witness filesystem for C1: `proj/.venv` exists and holds the marker. -/
def fsW1 : FS := ⟨[["proj", ".venv"]], [["proj", ".venv", "pyvenv.cfg"]]⟩

/-- Witness filesystem for C2: `proj/.venv` exists with the marker,
`.idea` and `config.toml` are in place, the prefix is elsewhere. -/
def fsW2 : FS :=
  ⟨[["proj"], ["proj", ".idea"], ["proj", ".venv"]],
   [["proj", "tk_utils", "config.toml"], ["proj", ".venv", "pyvenv.cfg"]]⟩

/-- Candidate filesystem for the C7 witness: only `pip3` exists. -/
def fsW7 : FS := ⟨[], [["proj", ".venv", "bin", "pip3"]]⟩

/-- The world of the C10 witness: a well-formed project, no venv yet. -/
def wW10 : World :=
  ⟨true, ["usr"], ["proj"],
   ⟨[["proj"], ["proj", ".idea"]], [["proj", "tk_utils", "config.toml"]]⟩,
   ⟨"x", "y"⟩⟩

/-! ## Theorems -/

/-- After `rmtree p`, the path `p` no longer exists. -/
theorem FS.pathExists_rmtree_self (fs : FS) (p : Pth) :
    (fs.rmtree p).pathExists p = false := by
  have hpfx : p.isPrefixOf p = true := by
    rw [ List.isPrefixOf_iff_prefix]
  simp [FS.rmtree, FS.pathExists, FS.isDir, FS.isFile, List.mem_filter, hpfx]

/-- Lemma: `main` stops at `check_locs` when the guard raises. -/
theorem mainRun_check_error (w : World) (args : Args) (e : SetupError)
    (h : check_locs w.projectRoot w.fs = .error e) :
    mainRun w args = { exitCode := 1, fs := w.fs, events := [] } := by
  unfold mainRun
  rw [h]

/-- Lemma: `main` stops at `setup_venv` when `create_venv` raises. -/
theorem mainRun_create_error (w : World) (args : Args) (u : Unit) (e : SetupError)
    (hok : check_locs w.projectRoot w.fs = .ok u)
    (he : (create_venv w.posix w.sysPfx (mk_venv_opts w.posix w.projectRoot).root
            args.force w.fs).result = .error e) :
    mainRun w args =
      { exitCode := 1,
        fs := (create_venv w.posix w.sysPfx (mk_venv_opts w.posix w.projectRoot).root
                args.force w.fs).fs,
        events := (create_venv w.posix w.sysPfx (mk_venv_opts w.posix w.projectRoot).root
                args.force w.fs).events } := by
  unfold mainRun
  rw [hok]
  simp only [he]

/-- C1: when the target directory is the Active environment (the
activity test of the source holds), `create_venv` is a no-op that reports
success — no error, unchanged filesystem, no subprocess and no deletion —
and so is a second call after the first; moreover any call (any prefix,
any force flag, any filesystem) that does change the filesystem performs
exactly the creation write from a state in which the target is absent. -/
theorem c1_active_ensure_idempotent (posix : Bool) (pfx env : Pth) (force : Bool)
    (fs : FS) (hact : pfx = env) :
    create_venv posix pfx env force fs
      = { result := .ok false, fs := fs, events := [] } ∧
    create_venv posix pfx env force (create_venv posix pfx env force fs).fs
      = { result := .ok false, fs := fs, events := [] } ∧
    (∀ (p' : Pth) (f' : Bool) (fs' : FS),
        (create_venv posix p' env f' fs').fs ≠ fs' →
        ∃ fsA : FS, fsA.pathExists env = false ∧
          (create_venv posix p' env f' fs').fs = fsA.mkVenv posix env) := by
  have h1 : create_venv posix pfx env force fs
      = { result := .ok false, fs := fs, events := [] } := by
    unfold create_venv
    simp [hact]
  refine ⟨h1, ?_, ?_⟩
  · rw [h1]
    exact h1
  · intro p' f' fs' hne
    by_cases hp : p' = env
    · unfold create_venv at hne
      simp [hp] at hne
    · by_cases hex : fs'.pathExists env = true
      · by_cases hf : (f' && (env.getLast? == some (".venv"))) = true
        · refine ⟨fs'.rmtree env, FS.pathExists_rmtree_self fs' env, ?_⟩
          unfold create_venv
          simp [hp, hex, hf]
        · exfalso
          apply hne
          unfold create_venv
          simp [hp, hex, hf]
          split <;> rfl
      · refine ⟨fs', by simpa using hex, ?_⟩
        unfold create_venv
        simp [hp, hex]

/-- C1 witness at a concrete Active input. -/
theorem c1_witness :
    (["proj", ".venv"] : Pth) = ["proj", ".venv"] ∧
    (create_venv true ["proj", ".venv"] ["proj", ".venv"] false fsW1
      = { result := .ok false, fs := fsW1, events := [] } ∧
    create_venv true ["proj", ".venv"] ["proj", ".venv"] false
        (create_venv true ["proj", ".venv"] ["proj", ".venv"] false fsW1).fs
      = { result := .ok false, fs := fsW1, events := [] } ∧
    (∀ (p' : Pth) (f' : Bool) (fs' : FS),
        (create_venv true p' ["proj", ".venv"] f' fs').fs ≠ fs' →
        ∃ fsA : FS, fsA.pathExists ["proj", ".venv"] = false ∧
          (create_venv true p' ["proj", ".venv"] f' fs').fs = fsA.mkVenv true ["proj", ".venv"])) :=
  ⟨rfl, c1_active_ensure_idempotent true ["proj", ".venv"] ["proj", ".venv"] false fsW1 rfl⟩

/-- C2: an existing, non-active environment directory with `force=false`
makes `create_venv` raise — the conflict error when the directory holds
the `pyvenv.cfg` marker, the corrupt-environment error when it lacks it —
with no filesystem mutation and no subprocess; a full run under those
conditions exits with code 1 leaving the filesystem unchanged. -/
theorem c2_inactive_existing_noforce (posix : Bool) (pfx env : Pth) (fs : FS)
    (hex : fs.pathExists env = true) (hact : pfx ≠ env) :
    (fs.pathExists (env ++ ["pyvenv.cfg"]) = true →
       create_venv posix pfx env false fs
         = { result := .error (.envConflict (conflictMsg env)), fs := fs, events := [] }) ∧
    (fs.pathExists (env ++ ["pyvenv.cfg"]) = false →
       create_venv posix pfx env false fs
         = { result := .error (.corruptEnv (corruptMsg env)), fs := fs, events := [] }) ∧
    (∀ (projectRoot : Pth) (cfg : Config) (branch : Option String),
        env = (mk_venv_opts posix projectRoot).root →
        (mainRun ⟨posix, pfx, projectRoot, fs, cfg⟩ ⟨false, branch⟩).exitCode = 1 ∧
        (mainRun ⟨posix, pfx, projectRoot, fs, cfg⟩ ⟨false, branch⟩).fs = fs ∧
        (mainRun ⟨posix, pfx, projectRoot, fs, cfg⟩ ⟨false, branch⟩).events = []) := by
  have hconf : fs.pathExists (env ++ ["pyvenv.cfg"]) = true →
      create_venv posix pfx env false fs
        = { result := .error (.envConflict (conflictMsg env)), fs := fs, events := [] } := by
    intro hcfg
    unfold create_venv
    simp [hact, hex, hcfg]
  have hcorr : fs.pathExists (env ++ ["pyvenv.cfg"]) = false →
      create_venv posix pfx env false fs
        = { result := .error (.corruptEnv (corruptMsg env)), fs := fs, events := [] } := by
    intro hcfg
    unfold create_venv
    simp [hact, hex, hcfg]
  refine ⟨hconf, hcorr, ?_⟩
  intro projectRoot cfg branch henv
  have hcv : ∃ e, create_venv posix pfx env false fs
      = { result := .error e, fs := fs, events := [] } := by
    by_cases hcfg : fs.pathExists (env ++ ["pyvenv.cfg"]) = true
    · exact ⟨_, hconf hcfg⟩
    · exact ⟨_, hcorr (by simpa using hcfg)⟩
  obtain ⟨e, he⟩ := hcv
  cases hchk : check_locs projectRoot fs with
  | error e0 =>
      have := mainRun_check_error ⟨posix, pfx, projectRoot, fs, cfg⟩ ⟨false, branch⟩ e0 hchk
      rw [this]
      exact ⟨rfl, rfl, rfl⟩
  | ok u =>
      have hmain := mainRun_create_error ⟨posix, pfx, projectRoot, fs, cfg⟩
        ⟨false, branch⟩ u e hchk (by rw [← henv, he])
      rw [hmain, ← henv, he]
      exact ⟨rfl, rfl, rfl⟩

/-- C2 witness at a concrete existing-inactive input. -/
theorem c2_witness :
    fsW2.pathExists ["proj", ".venv"] = true ∧ (["usr"] : Pth) ≠ ["proj", ".venv"] ∧
    ((fsW2.pathExists (["proj", ".venv"] ++ ["pyvenv.cfg"]) = true →
       create_venv true ["usr"] ["proj", ".venv"] false fsW2
         = { result := .error (.envConflict (conflictMsg ["proj", ".venv"])),
             fs := fsW2, events := [] }) ∧
    (fsW2.pathExists (["proj", ".venv"] ++ ["pyvenv.cfg"]) = false →
       create_venv true ["usr"] ["proj", ".venv"] false fsW2
         = { result := .error (.corruptEnv (corruptMsg ["proj", ".venv"])),
             fs := fsW2, events := [] }) ∧
    (∀ (projectRoot : Pth) (cfg : Config) (branch : Option String),
        ["proj", ".venv"] = (mk_venv_opts true projectRoot).root →
        (mainRun ⟨true, ["usr"], projectRoot, fsW2, cfg⟩ ⟨false, branch⟩).exitCode = 1 ∧
        (mainRun ⟨true, ["usr"], projectRoot, fsW2, cfg⟩ ⟨false, branch⟩).fs = fsW2 ∧
        (mainRun ⟨true, ["usr"], projectRoot, fsW2, cfg⟩ ⟨false, branch⟩).events = [])) :=
  ⟨by decide, by decide,
   c2_inactive_existing_noforce true ["usr"] ["proj", ".venv"] fsW2 (by decide) (by decide)⟩

/-- C3 counterexample: an existing non-active directory named
`proj/oldenv` (name differs from `.venv`) without the marker file, with
`force=true`: `create_venv` does not delete it, but the error raised is
the corrupt-environment one, not the conflict one as the claim states. -/
theorem c3_force_other_name_counterexample :
    create_venv true ["usr"] ["proj", "oldenv"] true ⟨[["proj", "oldenv"]], []⟩
      = { result := .error (.corruptEnv (corruptMsg ["proj", "oldenv"])),
          fs := ⟨[["proj", "oldenv"]], []⟩, events := [] } ∧
    (create_venv true ["usr"] ["proj", "oldenv"] true ⟨[["proj", "oldenv"]], []⟩).result
      ≠ .error (.envConflict (conflictMsg ["proj", "oldenv"])) := by
  constructor
  · decide
  · decide

/-- C3 (amended): with `force=true` on an existing, non-active directory,
`create_venv` destroys and recreates the environment exactly when the
directory name is `.venv`; for any other name it deletes nothing and
fails — with the conflict error when the directory contains the
`pyvenv.cfg` marker, and with the corrupt-environment error when it
lacks it. -/
theorem c3_force_scoped_to_venv_name (posix : Bool) (pfx env : Pth) (fs : FS)
    (hex : fs.pathExists env = true) (hact : pfx ≠ env) :
    (env.getLast? = some (".venv") →
       create_venv posix pfx env true fs
         = { result := .ok true, fs := (fs.rmtree env).mkVenv posix env,
             events := [.rmtree env, .runVenv env] }) ∧
    (env.getLast? ≠ some (".venv") →
       (create_venv posix pfx env true fs).fs = fs ∧
       (create_venv posix pfx env true fs).events = [] ∧
       (fs.pathExists (env ++ ["pyvenv.cfg"]) = true →
          (create_venv posix pfx env true fs).result
            = .error (.envConflict (conflictMsg env))) ∧
       (fs.pathExists (env ++ ["pyvenv.cfg"]) = false →
          (create_venv posix pfx env true fs).result
            = .error (.corruptEnv (corruptMsg env)))) := by
  constructor
  · intro hname
    unfold create_venv
    simp [hact, hex, hname]
  · intro hname
    unfold create_venv
    by_cases hcfg : fs.pathExists (env ++ ["pyvenv.cfg"]) = true
    · simp [hact, hex, hname, hcfg]
    · simp [hact, hex, hname, hcfg]

/-- C3 witness at a concrete input: directory named `.venv`, existing,
inactive, `force=true` destroys and recreates. -/
theorem c3_witness :
    fsW1.pathExists ["proj", ".venv"] = true ∧ (["usr"] : Pth) ≠ ["proj", ".venv"] ∧
    (((["proj", ".venv"] : Pth).getLast? = some (".venv") →
       create_venv true ["usr"] ["proj", ".venv"] true fsW1
         = { result := .ok true,
             fs := (fsW1.rmtree ["proj", ".venv"]).mkVenv true ["proj", ".venv"],
             events := [.rmtree ["proj", ".venv"], .runVenv ["proj", ".venv"]] }) ∧
    ((["proj", ".venv"] : Pth).getLast? ≠ some (".venv") →
       (create_venv true ["usr"] ["proj", ".venv"] true fsW1).fs = fsW1 ∧
       (create_venv true ["usr"] ["proj", ".venv"] true fsW1).events = [] ∧
       (fsW1.pathExists (["proj", ".venv"] ++ ["pyvenv.cfg"]) = true →
          (create_venv true ["usr"] ["proj", ".venv"] true fsW1).result
            = .error (.envConflict (conflictMsg ["proj", ".venv"]))) ∧
       (fsW1.pathExists (["proj", ".venv"] ++ ["pyvenv.cfg"]) = false →
          (create_venv true ["usr"] ["proj", ".venv"] true fsW1).result
            = .error (.corruptEnv (corruptMsg ["proj", ".venv"]))))) :=
  ⟨by decide, by decide,
   c3_force_scoped_to_venv_name true ["usr"] ["proj", ".venv"] fsW1 (by decide) (by decide)⟩

/-- C4 counterexample: the interpreter prefix `proj/.venv/bin` lies
strictly inside the target directory `proj/.venv`, yet `create_venv`
does not classify the environment as Active and no-op: it raises the
conflict error, because the source tests `sys.prefix == str(env_dir)`
by exact equality. -/
theorem c4_active_under_counterexample :
    subpathOf ["proj", ".venv"] ["proj", ".venv", "bin"] ∧
    create_venv true ["proj", ".venv", "bin"] ["proj", ".venv"] false
        ⟨[["proj", ".venv"]], [["proj", ".venv", "pyvenv.cfg"]]⟩
      = { result := .error (.envConflict (conflictMsg ["proj", ".venv"])),
          fs := ⟨[["proj", ".venv"]], [["proj", ".venv", "pyvenv.cfg"]]⟩,
          events := [] } :=
  ⟨⟨["bin"], rfl⟩, by decide⟩

/-- C4 (amended): `create_venv` classifies the environment as Active —
returning `False` with no effect — exactly when the interpreter prefix
path equals the environment directory path; a prefix strictly inside the
directory is not classified as Active. -/
theorem c4_active_iff_prefix_eq (posix : Bool) (pfx env : Pth) (force : Bool)
    (fs : FS) :
    (create_venv posix pfx env force fs).result = .ok false ↔ pfx = env := by
  unfold create_venv
  split
  · rename_i h
    simp [h]
  · rename_i h
    split
    · split
      · simp [h]
      · split <;> simp [h]
    · simp [h]

/-- C5: whenever the project root lacks the `.idea` marker directory,
`check_locs` fails with the misplaced-project error whose message ends
with the rendered directory-tree diagram, and `main` exits with code 1
having performed no filesystem change and no subprocess call — the
provisioning step is never reached — regardless of the rest of the
filesystem (in particular of whether `config.toml` exists). -/
theorem c5_missing_marker_guard (root : Pth) (fs : FS)
    (h : has_idea_folder fs root = false) :
    check_locs root fs = .error (.misplacedProject misplacedMsg) ∧
    (∃ pre, misplacedMsg = pre ++ mk_dirtree ("") ("") ("<- This file")) ∧
    (∀ (w : World) (args : Args), w.projectRoot = root → w.fs = fs →
       mainRun w args = { exitCode := 1, fs := fs, events := [] }) := by
  have hcl : check_locs root fs = .error (.misplacedProject misplacedMsg) := by
    unfold check_locs
    simp [h]
  refine ⟨hcl, ⟨"tk_utils should be inside a PyCharm project folder:\n\n", by decide⟩, ?_⟩
  intro w args hr hf
  unfold mainRun
  rw [hr, hf, hcl]

/-- C6: whenever the project root has the `.idea` marker but
`config.toml` is absent at its fixed relative location, `check_locs`
fails with the missing-config error (the check itself returns no new
filesystem: it is pure), and a full run exits with code 1 leaving the
filesystem unchanged with no subprocess call. -/
theorem c6_missing_config_guard (root : Pth) (fs : FS)
    (hmark : has_idea_folder fs root = true)
    (hcfg : fs.pathExists (configTomlOf root) = false) :
    check_locs root fs = .error (.missingConfig missingConfigMsg) ∧
    (∀ (w : World) (args : Args), w.projectRoot = root → w.fs = fs →
       mainRun w args = { exitCode := 1, fs := fs, events := [] }) := by
  have hcl : check_locs root fs = .error (.missingConfig missingConfigMsg) := by
    unfold check_locs
    simp [hmark, hcfg]
  refine ⟨hcl, ?_⟩
  intro w args hr hf
  unfold mainRun
  rw [hr, hf, hcl]

/-- C9: for every host convention and project root, the binary directory
and every package-manager executable candidate built by `mk_venv_opts`
are subpaths of the root directory of the descriptor. -/
theorem c9_descriptor_subpaths (posix : Bool) (projectRoot : Pth) :
    subpathOf (mk_venv_opts posix projectRoot).root (mk_venv_opts posix projectRoot).bin ∧
    ∀ p ∈ (mk_venv_opts posix projectRoot).pips,
      subpathOf (mk_venv_opts posix projectRoot).root p := by
  constructor
  · exact ⟨[binDirName posix], rfl⟩
  · intro p hp
    simp only [mk_venv_opts, List.mem_map] at hp
    obtain ⟨a, _, rfl⟩ := hp
    exact ⟨[binDirName posix, a], by simp [mk_venv_opts]⟩

/-- C5 witness: an empty filesystem lacks the marker. -/
theorem c5_witness :
    has_idea_folder ⟨[], []⟩ ["proj"] = false ∧
    (check_locs ["proj"] ⟨[], []⟩ = .error (.misplacedProject misplacedMsg) ∧
    (∃ pre, misplacedMsg = pre ++ mk_dirtree ("") ("") ("<- This file")) ∧
    (∀ (w : World) (args : Args), w.projectRoot = ["proj"] → w.fs = ⟨[], []⟩ →
       mainRun w args = { exitCode := 1, fs := ⟨[], []⟩, events := [] })) :=
  ⟨by decide, c5_missing_marker_guard ["proj"] ⟨[], []⟩ (by decide)⟩

/-- C6 witness: marker present, `config.toml` absent. -/
theorem c6_witness :
    has_idea_folder ⟨[["proj"], ["proj", ".idea"]], []⟩ ["proj"] = true ∧
    FS.pathExists ⟨[["proj"], ["proj", ".idea"]], []⟩ (configTomlOf ["proj"]) = false ∧
    (check_locs ["proj"] ⟨[["proj"], ["proj", ".idea"]], []⟩
        = .error (.missingConfig missingConfigMsg) ∧
    (∀ (w : World) (args : Args), w.projectRoot = ["proj"] →
       w.fs = ⟨[["proj"], ["proj", ".idea"]], []⟩ →
       mainRun w args
         = { exitCode := 1, fs := ⟨[["proj"], ["proj", ".idea"]], []⟩, events := [] })) :=
  ⟨by decide, by decide,
   c6_missing_config_guard ["proj"] ⟨[["proj"], ["proj", ".idea"]], []⟩ (by decide) (by decide)⟩

/-- C9 witness at a concrete descriptor. -/
theorem c9_witness :
    subpathOf (mk_venv_opts true ["proj"]).root (mk_venv_opts true ["proj"]).bin ∧
    ∀ p ∈ (mk_venv_opts true ["proj"]).pips,
      subpathOf (mk_venv_opts true ["proj"]).root p :=
  c9_descriptor_subpaths true ["proj"]

/-- Lemma: `find?` returns the first element satisfying the test: everything
before it in the list fails the test. -/
theorem find?_first {α : Type} (f : α → Bool) :
    ∀ (l : List α) (a : α), l.find? f = some a →
      ∃ l1 l2, l = l1 ++ a :: l2 ∧ f a = true ∧ ∀ x ∈ l1, f x = false := by
  intro l
  induction l with
  | nil =>
      intro a h
      simp [List.find?] at h
  | cons b t ih =>
      intro a h
      by_cases hb : f b = true
      · rw [List.find?_cons_of_pos t hb] at h
        obtain rfl : b = a := by injection h
        exact ⟨[], t, rfl, hb, by simp⟩
      · rw [List.find?_cons_of_neg t hb] at h
        obtain ⟨l1, l2, rfl, hfa, hl1⟩ := ih a h
        refine ⟨b :: l1, l2, rfl, hfa, ?_⟩
        intro x hx
        rcases List.mem_cons.mp hx with h1 | h1
        · subst h1
          simpa using hb
        · exact hl1 x h1

/-- C7: `get_pip` searches the ordered candidate list and returns the
first candidate that exists and is a file; when no candidate exists
under the binary directory, installation fails with the
package-manager-not-found error and performs no subprocess call. -/
theorem c7_pip_search (fs : FS) (venv : VenvOpts) :
    (∀ p : Pth, get_pip fs venv = some p →
       ∃ l1 l2, venv.pips = l1 ++ p :: l2 ∧ pipOk fs p = true ∧
         ∀ q ∈ l1, pipOk fs q = false) ∧
    ((∀ p ∈ venv.pips, fs.pathExists p = false) →
       ∀ (c : Config) (fr : Bool) (br : Option String),
         install_tk_utils_core fs venv c fr br
           = { result := .error (.pipNotFound pipNotFoundMsg), events := [] }) := by
  constructor
  · intro p hp
    exact find?_first (pipOk fs) venv.pips p hp
  · intro hnone c fr br
    have hgp : get_pip fs venv = none := by
      rw [get_pip, List.find?_eq_none]
      intro x hx
      simp [pipOk, hnone x hx]
    unfold install_tk_utils_core
    rw [hgp]

/-- C7 witness at a concrete descriptor and filesystem. -/
theorem c7_witness :
    (∀ p : Pth, get_pip fsW7 (mk_venv_opts true ["proj"]) = some p →
       ∃ l1 l2, (mk_venv_opts true ["proj"]).pips = l1 ++ p :: l2 ∧
         pipOk fsW7 p = true ∧ ∀ q ∈ l1, pipOk fsW7 q = false) ∧
    ((∀ p ∈ (mk_venv_opts true ["proj"]).pips, fsW7.pathExists p = false) →
       ∀ (c : Config) (fr : Bool) (br : Option String),
         install_tk_utils_core fsW7 (mk_venv_opts true ["proj"]) c fr br
           = { result := .error (.pipNotFound pipNotFoundMsg), events := [] }) :=
  c7_pip_search fsW7 (mk_venv_opts true ["proj"])

/-- C8: with a pip executable found, the install command is built from
exactly the two configuration fields: it runs pip `install` on the
single target `git+https://github.com/x/y.git`, with `@branch` appended
when a (nonempty) branch is supplied and `--force-reinstall` included
exactly when `force_reinstall` is set. -/
theorem c8_install_url (fs : FS) (venv : VenvOpts) (x y : String) (fr : Bool)
    (pip : Pth) (hp : get_pip fs venv = some pip) :
    (∀ b : String, b ≠ "" →
       install_tk_utils_core fs venv ⟨x, y⟩ fr (some b)
         = { result := .ok (),
             events := [.runPip ([pathStr pip, "install"] ++
               (if fr then ["--force-reinstall"] else []) ++
               ["git+https://github.com/" ++ x ++ "/" ++ y ++ ".git@" ++ b])] }) ∧
    install_tk_utils_core fs venv ⟨x, y⟩ fr none
      = { result := .ok (),
          events := [.runPip ([pathStr pip, "install"] ++
            (if fr then ["--force-reinstall"] else []) ++
            ["git+https://github.com/" ++ x ++ "/" ++ y ++ ".git"])] } := by
  have hok : pipOk fs pip = true := List.find?_some hp
  have hpe : fs.pathExists pip = true := by
    have := (Bool.and_eq_true _ _).mp hok
    exact this.1
  have hlit1 : ("git+https://github.com/" : String) = "git+" ++ "https://github.com/" := rfl
  have hlit2 : (".git@" : String) = ".git" ++ "@" := rfl
  constructor
  · intro b hb
    unfold install_tk_utils_core
    rw [hp]
    simp only [hpe, Bool.not_true, Bool.false_eq_true, if_false, installCmd,
      tk_utils_core_url, hb, if_true, ne_eq, not_false_iff, if_pos]
    rw [hlit1, hlit2]
    simp only [String.append_assoc]
  · unfold install_tk_utils_core
    rw [hp]
    simp only [hpe, Bool.not_true, Bool.false_eq_true, if_false, installCmd,
      tk_utils_core_url]
    rw [hlit1]
    simp only [String.append_assoc]

/-- C8 witness at a concrete input. -/
theorem c8_witness :
    get_pip fsW7 (mk_venv_opts true ["proj"]) = some ["proj", ".venv", "bin", "pip3"] ∧
    ((∀ b : String, b ≠ "" →
       install_tk_utils_core fsW7 (mk_venv_opts true ["proj"]) ⟨"x", "y"⟩ false (some b)
         = { result := .ok (),
             events := [.runPip (["proj/.venv/bin/pip3", "install"] ++
               (if false then ["--force-reinstall"] else []) ++
               ["git+https://github.com/" ++ "x" ++ "/" ++ "y" ++ ".git@" ++ b])] }) ∧
    install_tk_utils_core fsW7 (mk_venv_opts true ["proj"]) ⟨"x", "y"⟩ false none
      = { result := .ok (),
          events := [.runPip (["proj/.venv/bin/pip3", "install"] ++
            (if false then ["--force-reinstall"] else []) ++
            ["git+https://github.com/" ++ "x" ++ "/" ++ "y" ++ ".git"])] }) :=
  ⟨by decide,
   c8_install_url fsW7 (mk_venv_opts true ["proj"]) "x" "y" false
     ["proj", ".venv", "bin", "pip3"] (by decide)⟩

/-- Lemma: `create_venv` never spawns pip. -/
theorem create_venv_no_runPip (posix : Bool) (pfx env : Pth) (force : Bool)
    (fs : FS) (cmd : List String) :
    Event.runPip cmd ∉ (create_venv posix pfx env force fs).events := by
  unfold create_venv
  split
  · simp
  · split
    · split
      · simp
      · split <;> simp
    · simp

/-- A pip invocation from `install_tk_utils_core` with
`force_reinstall=true` carries the `--force-reinstall` flag. -/
theorem install_runPip_forced (fs : FS) (venv : VenvOpts) (c : Config)
    (br : Option String) (cmd : List String)
    (h : Event.runPip cmd ∈ (install_tk_utils_core fs venv c true br).events) :
    "--force-reinstall" ∈ cmd := by
  unfold install_tk_utils_core at h
  cases hp : get_pip fs venv with
  | none =>
      rw [hp] at h
      simp at h
  | some pip =>
      rw [hp] at h
      by_cases hpe : fs.pathExists pip = true
      · simp only [hpe, Bool.not_true, Bool.false_eq_true, if_false,
          List.mem_singleton] at h
        obtain rfl : cmd = installCmd pip c true br := by injection h
        simp [installCmd]
      · simp [hpe] at h

/-- C10: every run that reaches the dependency-installation step invokes
pip with `--force-reinstall`: `main` leaves the `force_reinstall` parameter of
`install_tk_utils_core` at its default `True`, and the CLI (`--force`,
`--branch`) exposes no way to disable it. -/
theorem c10_force_reinstall_always (w : World) (args : Args) (cmd : List String)
    (h : Event.runPip cmd ∈ (mainRun w args).events) :
    "--force-reinstall" ∈ cmd := by
  unfold mainRun at h
  cases hchk : check_locs w.projectRoot w.fs with
  | error e =>
      rw [hchk] at h
      simp at h
  | ok u =>
      rw [hchk] at h
      simp only [] at h
      cases hcv : (create_venv w.posix w.sysPfx (mk_venv_opts w.posix w.projectRoot).root
          args.force w.fs).result with
      | error e =>
          rw [hcv] at h
          exact absurd h (create_venv_no_runPip _ _ _ _ _ _)
      | ok bb =>
          rw [hcv] at h
          have hsplit : Event.runPip cmd ∈
              (create_venv w.posix w.sysPfx (mk_venv_opts w.posix w.projectRoot).root
                args.force w.fs).events ++
              (install_tk_utils_core
                (create_venv w.posix w.sysPfx (mk_venv_opts w.posix w.projectRoot).root
                  args.force w.fs).fs
                (mk_venv_opts w.posix w.projectRoot) w.config true args.branch).events := by
            revert h
            cases (install_tk_utils_core
                (create_venv w.posix w.sysPfx (mk_venv_opts w.posix w.projectRoot).root
                  args.force w.fs).fs
                (mk_venv_opts w.posix w.projectRoot) w.config true args.branch).result with
            | error e => exact fun h => h
            | ok uu => exact fun h => h
          rcases List.mem_append.mp hsplit with hl | hr
          · exact absurd hl (create_venv_no_runPip _ _ _ _ _ _)
          · exact install_runPip_forced _ _ _ _ _ hr

/-- C10 witness: a concrete full run whose pip invocation carries the flag. -/
theorem c10_witness :
    Event.runPip ["proj/.venv/bin/pip", "install", "--force-reinstall",
        "git+https://github.com/x/y.git"] ∈ (mainRun wW10 ⟨false, none⟩).events ∧
    "--force-reinstall" ∈ ["proj/.venv/bin/pip", "install", "--force-reinstall",
        "git+https://github.com/x/y.git"] :=
  ⟨by decide,
   c10_force_reinstall_always wW10 ⟨false, none⟩
     ["proj/.venv/bin/pip", "install", "--force-reinstall", "git+https://github.com/x/y.git"]
     (by decide)⟩

end TkSetup
